import Mathlib

/- Shallow embedding of the Reolink-DetectAI source tree (src/): the motion
   pre-filter (camera_streams/motion_detector.py), the per-frame step of the
   main consumer loop (main.py), the stream handler's connected frame-pull
   cycle (camera_streams/stream_handler.py), the stream manager's shared
   frame queue (camera_streams/stream_manager.py), and the capture /
   annotated-image path conventions (utils/helpers.py, main.py). -/

/-- A BGR pixel as handed to cv2.cvtColor (motion_detector.py line 41). -/
structure Pixel where
  b : Nat
  g : Nat
  r : Nat

/-- Model of cv2.cvtColor(frame, COLOR_BGR2GRAY) on one pixel: the fixed
weighted intensity 0.299 R + 0.587 G + 0.114 B, rounded to nearest. -/
def grayOfPixel (p : Pixel) : Nat :=
  (299 * p.r + 587 * p.g + 114 * p.b + 500) / 1000

/-- Model of cv2.cvtColor(frame, COLOR_BGR2GRAY); frames are flat pixel
lists. -/
def cvtColorGray (frame : List Pixel) : List Nat :=
  frame.map grayOfPixel

/-- Model of cv2.absdiff on two grayscale images (motion_detector.py
line 49). -/
def absdiff (a b : List Nat) : List Nat :=
  List.zipWith (fun x y => max x y - min x y) a b

/-- Model of cv2.threshold(diff, threshold, 255, THRESH_BINARY)
(motion_detector.py line 53): a pixel strictly above the threshold becomes
maxval, any other pixel becomes 0. -/
def thresholdBinary (threshold maxval : Nat) (img : List Nat) : List Nat :=
  img.map (fun p => if threshold < p then maxval else 0)

/-- Model of cv2.countNonZero (motion_detector.py line 57). -/
def countNonZero (img : List Nat) : Nat :=
  (img.filter (fun p => decide (p ≠ 0))).length

/-- State of a camera_streams/motion_detector.py MotionDetector instance:
thresholds plus the retained previous grayscale frame. -/
structure MotionDetector where
  threshold : Nat
  min_area : Nat
  prev_frame : Option (List Nat)

/-- MotionDetector.__init__ (motion_detector.py lines 24-26): prev_frame
starts as None. -/
def MotionDetector.mkFresh (threshold min_area : Nat) : MotionDetector :=
  ⟨threshold, min_area, none⟩

/-- MotionDetector.detect (motion_detector.py lines 28-66): returns
((motion_detected, motion_score), updated detector state). -/
def MotionDetector.detect (md : MotionDetector) (frame : List Pixel) :
    (Bool × Nat) × MotionDetector :=
  let gray := cvtColorGray frame
  match md.prev_frame with
  | none => ((false, 0), ⟨md.threshold, md.min_area, some gray⟩)
  | some prev =>
    let diff := absdiff prev gray
    let thresh := thresholdBinary md.threshold 255 diff
    let motion_score := countNonZero thresh
    let motion_detected := decide (md.min_area < motion_score)
    ((motion_detected, motion_score), ⟨md.threshold, md.min_area, some gray⟩)

/-- A detection dictionary as produced by InferenceEngine.run
(inference_engine.py lines 90-94). -/
structure Detection where
  label : String
  confidence : ℚ
  bbox : Int × Int × Int × Int

/-- The per-camera cooldown entries of main.py (lines 78-79):
last_alert_times[camera_id] (the detection-escalation cooldown timer, the
spec's lastDetectionTime) and last_email_times[camera_id] (the email alert
cooldown timer, the spec's lastAlertTime). The main loop only ever reads
and writes the entries keyed by the received frame's camera_id. -/
structure CameraState where
  last_alert_time : Int
  last_email_time : Int
deriving DecidableEq

/-- Observable events of one iteration of the main loop body:
whether the motion branch (stabilization sleep and frame persist, main.py
lines 106-139) was entered, whether inference.run was invoked (line 146),
and how many times send_alert_email was invoked (line 177). -/
structure StepTrace where
  escalated : Bool
  inference_invoked : Bool
  emails_sent : Nat
deriving DecidableEq

/-- The hardcoded alert-worthy label set of main.py line 158. -/
def requiredLabelsForAlert : List String := ["person", "car"]

/-- One iteration of the main consumer loop body after a frame for one
camera was received and its motion result computed (main.py lines 101-193).
External effects enter as explicit inputs: save_successful combines the
cv2.imwrite return value and the surrounding try/except (lines 114-139),
detections is the value returned by inference.run (line 146), and
annotated_exists is the os.path.exists check on the reconstructed annotated
path (line 171). -/
def processFrame (detection_cooldown email_cooldown : Int)
    (st : CameraState) (motion_detected : Bool) (current_time : Int)
    (save_successful : Bool) (detections : List Detection)
    (annotated_exists : Bool) : CameraState × StepTrace :=
  let in_cooldown := decide (current_time - st.last_alert_time < detection_cooldown)
  if motion_detected && !in_cooldown then
    if save_successful then
      if detections.isEmpty then
        (st, ⟨true, true, 0⟩)
      else
        let detected_labels := detections.map (fun d => d.label)
        let alert_condition_met :=
          requiredLabelsForAlert.any (fun l => detected_labels.contains l)
        let email_cooldown_passed :=
          decide (email_cooldown ≤ current_time - st.last_email_time)
        if alert_condition_met && email_cooldown_passed then
          if annotated_exists then
            (⟨current_time, current_time⟩, ⟨true, true, 1⟩)
          else
            (⟨current_time, st.last_email_time⟩, ⟨true, true, 0⟩)
        else
          (⟨current_time, st.last_email_time⟩, ⟨true, true, 0⟩)
    else
      (st, ⟨true, false, 0⟩)
  else
    (st, ⟨false, false, 0⟩)

/-- Model of Python queue.Queue: in CPython a maxsize of 0 means an
unbounded queue; put can fail (queue.Full) only when 0 < maxsize and the
queue already holds maxsize items. -/
structure PyQueue (α : Type) where
  maxsize : Nat
  items : List α
deriving DecidableEq

/-- queue.Queue.put(item, timeout): the queue after the call and whether the
item was accepted (false models the queue.Full exception after the timeout
elapses). -/
def PyQueue.put {α : Type} (q : PyQueue α) (x : α) : PyQueue α × Bool :=
  if 0 < q.maxsize ∧ q.maxsize ≤ q.items.length then (q, false)
  else ({ q with items := q.items ++ [x] }, true)

/-- The shared frame queue exactly as StreamManager.__init__ constructs it
(stream_manager.py line 28): queue.Queue() with the default maxsize of 0. -/
def StreamManager.frameQueueInit : PyQueue (String × List Pixel) :=
  ⟨0, []⟩

/-- The put-or-drop step of StreamManager._run_stream (stream_manager.py
lines 78-84) iterated over a list of produced frames with no intervening
consumption; the second component counts dropped frames (the queue.Full
branch that logs a warning and drops the frame). -/
def runStreamPuts (q : PyQueue (String × List Pixel)) (camera_id : String)
    (frames : List (List Pixel)) : PyQueue (String × List Pixel) × Nat :=
  frames.foldl
    (fun acc f =>
      let r := PyQueue.put acc.1 (camera_id, f)
      (r.1, acc.2 + (if r.2 then 0 else 1)))
    (q, 0)

/-- One buffered transport packet for the stream handler model: a grab can
fail outright (.grabFail); a grabbed packet can fail to decode during
retrieve (.decodeFail); or it decodes to a frame (.ok). cv2 grab fetches a
packet without decoding; retrieve decodes the most recently grabbed one. -/
inductive Packet where
  | grabFail
  | decodeFail
  | ok (frame : Nat)
deriving DecidableEq

/-- The connected cv2.VideoCapture as the stream handler sees it: the
pending transport buffer, plus the most recently grabbed packet. -/
structure Cap where
  buffer : List Packet
  lastGrabbed : Option Packet
deriving DecidableEq

/-- cv2.VideoCapture.grab (stream_handler.py line 74): consume one buffered
packet without decoding it; returns False on failure. -/
def Cap.grab : Cap → Bool × Cap
  | ⟨[], lg⟩ => (false, ⟨[], lg⟩)
  | ⟨p :: rest, _⟩ =>
    match p with
    | Packet.grabFail => (false, ⟨rest, some p⟩)
    | _ => (true, ⟨rest, some p⟩)

/-- cv2.VideoCapture.retrieve (stream_handler.py line 82): decode the most
recently grabbed packet; returns (ret, frame). -/
def Cap.retrieve (c : Cap) : Bool × Option Nat :=
  match c.lastGrabbed with
  | some (Packet.ok f) => (true, some f)
  | _ => (false, none)

/-- The buffer-flush loop of StreamHandler.get_frame (stream_handler.py
lines 73-79): up to n grabs, stopping at the first failure (the break);
returns whether all grabs succeeded. -/
def flushGrabs : Nat → Cap → Bool × Cap
  | 0, c => (true, c)
  | n + 1, c =>
    let r := c.grab
    if r.1 then flushGrabs n r.2 else (false, r.2)

/-- Outcome of one connected pull cycle: either a decoded frame is yielded,
or the handler released the capture, cleared it, and slept the reconnect
delay before retrying (stream_handler.py lines 85-92). -/
inductive CycleResult where
  | yield (frame : Nat) (cap : Cap)
  | reconnect (released : Bool) (slept : Nat)
deriving DecidableEq

/-- One connected iteration of StreamHandler.get_frame (stream_handler.py
lines 69-95): flush FRAME_BUFFER_FLUSH grabs; only if all succeeded,
retrieve (decode) the last grabbed packet; on any grab or retrieve failure,
release the capture and sleep the constant reconnect delay. -/
def getFrameCycle (flush reconnect_delay : Nat) (c : Cap) : CycleResult :=
  let fr := flushGrabs flush c
  if fr.1 then
    match fr.2.retrieve with
    | (true, some f) => CycleResult.yield f fr.2
    | _ => CycleResult.reconnect true reconnect_delay
  else
    CycleResult.reconnect true reconnect_delay

/-- First-some choice on optional packets, used to describe the lastGrabbed
slot left behind by a run of grabs. -/
def orElseO (a b : Option Packet) : Option Packet :=
  match a with
  | some x => some x
  | none => b

/-- A struct_time as consumed by time.strftime, with Python's field
names. -/
structure Tm where
  tm_year : Nat
  tm_mon : Nat
  tm_mday : Nat
  tm_hour : Nat
  tm_min : Nat
  tm_sec : Nat

/-- The decimal digit character for n mod 10. -/
def digitChar (n : Nat) : Char :=
  match n % 10 with
  | 0 => '0'
  | 1 => '1'
  | 2 => '2'
  | 3 => '3'
  | 4 => '4'
  | 5 => '5'
  | 6 => '6'
  | 7 => '7'
  | 8 => '8'
  | _ => '9'

/-- Two-digit zero-padded decimal rendering, as produced by the strftime
fields %m %d %H %M %S for in-range values. -/
def pad2 (n : Nat) : String :=
  String.mk [digitChar (n / 10), digitChar n]

/-- Four-digit zero-padded decimal rendering, as produced by %Y for
calendar-range years. -/
def pad4 (n : Nat) : String :=
  String.mk [digitChar (n / 1000), digitChar (n / 100), digitChar (n / 10), digitChar n]

/-- Model of time.strftime of the format string of helpers.py lines 53 and
85 (the YYYYMMDD-HHMMSS pattern) at the struct_time t. -/
def strftimeTimestamp (t : Tm) : String :=
  pad4 t.tm_year ++ pad2 t.tm_mon ++ pad2 t.tm_mday ++ "-"
    ++ pad2 t.tm_hour ++ pad2 t.tm_min ++ pad2 t.tm_sec

/-- Model of os.path.join for the nonempty relative components used by the
path helpers. -/
def pathJoin (a b : String) : String :=
  a ++ "/" ++ b

/-- utils/helpers.py generate_capture_path (lines 84-97), with the
strftime moment made explicit: base_dir/camera_id/timestamp.suffix. -/
def generate_capture_path (now : Tm) (camera_id base_dir suffix : String) : String :=
  pathJoin (pathJoin base_dir camera_id) (strftimeTimestamp now ++ "." ++ suffix)

/-- The path at which utils/helpers.py save_annotated_image (lines 53-54)
stores the annotated image, with its own strftime moment made explicit:
output_dir/camera_id/timestamp.jpg. -/
def annotatedImagePath (now : Tm) (camera_id output_dir : String) : String :=
  pathJoin (pathJoin output_dir camera_id) (strftimeTimestamp now ++ ".jpg")

/-- Model of os.path.basename for slash-separated paths: the characters
after the last slash. -/
def basename (s : String) : String :=
  String.mk ((s.toList.reverse.takeWhile (fun c => c != '/')).reverse)

/-- The root component of os.path.splitext for a name with a nonempty stem:
everything before the last dot, or the whole name when it has no dot. -/
def splitextRoot (s : String) : String :=
  if '.' ∈ s.toList then
    String.mk (((s.toList.reverse.dropWhile (fun c => c != '.')).drop 1).reverse)
  else
    s

/-- The annotated-image path the orchestrator reconstructs from the raw
capture path (main.py lines 168-169). -/
def reconstructedAnnotatedPath (image_path camera_id detections_dir : String) : String :=
  pathJoin (pathJoin detections_dir camera_id)
    (splitextRoot (basename image_path) ++ ".jpg")

/-- Zipping two equal-length constant lists gives a constant list. -/
theorem zipWith_replicate_same (f : Nat → Nat → Nat) (n : Nat) (a b : Nat) :
    List.zipWith f (List.replicate n a) (List.replicate n b)
      = List.replicate n (f a b) := by
  induction n with
  | zero => rfl
  | succ k ih => simp [List.replicate, ih]

/-- countNonZero of a constant nonzero image is its length. -/
theorem countNonZero_replicate_pos (n v : Nat) (hv : v ≠ 0) :
    countNonZero (List.replicate n v) = n := by
  induction n with
  | zero => rfl
  | succ k ih =>
    simp [countNonZero, List.replicate_succ, List.filter_cons, hv] at ih ⊢

/-- The binarize-then-count composition of motion_detector.py lines 53-57
counts exactly the pixels strictly above the threshold. -/
theorem countNonZero_thresholdBinary (thr : Nat) (img : List Nat) :
    countNonZero (thresholdBinary thr 255 img)
      = (img.filter (fun d => decide (thr < d))).length := by
  induction img with
  | nil => rfl
  | cons x xs ih =>
    by_cases h : thr < x <;>
      simp [countNonZero, thresholdBinary, List.filter, h] at * <;> omega

/-- detect on a pair of constant frames whose per-pixel difference clears the
threshold scores the full pixel count. -/
theorem motion_score_replicate (thr area n a : Nat) (p : Pixel)
    (hgt : thr < max a (grayOfPixel p) - min a (grayOfPixel p)) :
    (MotionDetector.detect ⟨thr, area, some (List.replicate n a)⟩
        (List.replicate n p)).1
      = (decide (area < n), n) := by
  simp only [MotionDetector.detect, cvtColorGray, List.map_replicate, absdiff,
    zipWith_replicate_same, thresholdBinary]
  rw [if_pos hgt, countNonZero_replicate_pos n 255 (by decide)]

/-- When every one of the first pre.length buffered packets can be grabbed,
the flush loop consumes exactly those packets, succeeds, and leaves the last
of them as the most recently grabbed packet. -/
theorem flushGrabs_all_ok (pre rest : List Packet) (lg : Option Packet)
    (h : ∀ p ∈ pre, p ≠ Packet.grabFail) :
    flushGrabs pre.length ⟨pre ++ rest, lg⟩
      = (true, ⟨rest, orElseO pre.getLast? lg⟩) := by
  induction pre generalizing lg with
  | nil => simp [flushGrabs, orElseO]
  | cons p ps ih =>
    have hp : p ≠ Packet.grabFail := h p (by simp)
    have hgrab : Cap.grab ⟨p :: (ps ++ rest), lg⟩ = (true, ⟨ps ++ rest, some p⟩) := by
      cases p <;> simp_all [Cap.grab]
    simp only [List.length_cons, List.cons_append, flushGrabs, hgrab, if_true]
    rw [ih (some p) (fun q hq => h q (by simp [hq]))]
    cases ps with
    | nil => rfl
    | cons q qs =>
      simp only [orElseO]
      cases hx : (q :: qs).getLast? with
      | none => simp at hx
      | some x => rw [List.getLast?_cons_cons, hx]

/-- When a grab failure sits within the flush window, the flush loop stops
there and reports failure. -/
theorem flushGrabs_grab_failure (pre rest : List Packet) (lg : Option Packet)
    (n : Nat) (hlt : pre.length < n) (h : ∀ p ∈ pre, p ≠ Packet.grabFail) :
    flushGrabs n ⟨pre ++ Packet.grabFail :: rest, lg⟩
      = (false, ⟨rest, some Packet.grabFail⟩) := by
  induction pre generalizing lg n with
  | nil =>
    cases n with
    | zero => omega
    | succ m => simp [flushGrabs, Cap.grab]
  | cons p ps ih =>
    cases n with
    | zero => omega
    | succ m =>
      have hp : p ≠ Packet.grabFail := h p (by simp)
      have hgrab : Cap.grab ⟨p :: (ps ++ Packet.grabFail :: rest), lg⟩
          = (true, ⟨ps ++ Packet.grabFail :: rest, some p⟩) := by
        cases p <;> simp_all [Cap.grab]
      simp only [List.cons_append, flushGrabs, hgrab, if_true]
      exact ih (some p) m (by simp at hlt; omega) (fun q hq => h q (by simp [hq]))

/-- Every character produced by digitChar is a decimal digit, hence neither
a slash nor a dot. -/
theorem digitChar_ne_slash_dot (n : Nat) : digitChar n ≠ '/' ∧ digitChar n ≠ '.' := by
  refine ⟨?_, ?_⟩ <;> (unfold digitChar; split <;> decide)

/-- The YYYYMMDD-HHMMSS timestamp string contains no slash and no dot. -/
theorem strftime_no_slash_dot (t : Tm) :
    ∀ c ∈ (strftimeTimestamp t).toList, c ≠ '/' ∧ c ≠ '.' := by
  intro c hc
  have hdata : (strftimeTimestamp t).toList
      = [digitChar (t.tm_year / 1000), digitChar (t.tm_year / 100),
         digitChar (t.tm_year / 10), digitChar t.tm_year,
         digitChar (t.tm_mon / 10), digitChar t.tm_mon,
         digitChar (t.tm_mday / 10), digitChar t.tm_mday, '-',
         digitChar (t.tm_hour / 10), digitChar t.tm_hour,
         digitChar (t.tm_min / 10), digitChar t.tm_min,
         digitChar (t.tm_sec / 10), digitChar t.tm_sec] := rfl
  rw [hdata] at hc
  simp only [List.mem_cons, List.not_mem_nil, or_false] at hc
  rcases hc with h|h|h|h|h|h|h|h|h|h|h|h|h|h|h <;> subst h
  all_goals first
    | exact digitChar_ne_slash_dot _
    | exact ⟨by decide, by decide⟩

/-- takeWhile of a list that fully satisfies the predicate, followed by a
failing element, returns exactly that list. -/
theorem takeWhile_append_stop (p : Char → Bool) (l1 : List Char) (x : Char)
    (l2 : List Char) (h1 : ∀ c ∈ l1, p c = true) (hx : p x = false) :
    (l1 ++ x :: l2).takeWhile p = l1 := by
  induction l1 with
  | nil => simp [List.takeWhile_cons, hx]
  | cons a as ih =>
    have ha := h1 a (by simp)
    simp [List.takeWhile_cons, ha, ih (fun c hc => h1 c (by simp [hc]))]

/-- dropWhile of a list that fully satisfies the predicate, followed by a
failing element, returns the failing element and everything after it. -/
theorem dropWhile_append_stop (p : Char → Bool) (l1 : List Char) (x : Char)
    (l2 : List Char) (h1 : ∀ c ∈ l1, p c = true) (hx : p x = false) :
    (l1 ++ x :: l2).dropWhile p = x :: l2 := by
  induction l1 with
  | nil => simp [List.dropWhile_cons, hx]
  | cons a as ih =>
    have ha := h1 a (by simp)
    simp [List.dropWhile_cons, ha, ih (fun c hc => h1 c (by simp [hc]))]

/-- basename of a path whose final component has no slash is that final
component. -/
theorem basename_append_last (a b : String) (h : ∀ c ∈ b.toList, c ≠ '/') :
    basename (a ++ "/" ++ b) = b := by
  unfold basename
  have hdata : (a ++ "/" ++ b).toList = a.toList ++ '/' :: b.toList := by
    show (a.data ++ ['/']) ++ b.data = a.data ++ '/' :: b.data
    simp
  rw [hdata]
  have hrev : (a.toList ++ '/' :: b.toList).reverse
      = b.toList.reverse ++ '/' :: a.toList.reverse := by
    simp
  rw [hrev, takeWhile_append_stop _ _ _ _
    (fun c hc => by
      simp only [List.mem_reverse] at hc
      simpa using h c hc)
    (by decide)]
  rw [List.reverse_reverse]
  rfl

/-- Stripping the .jpg extension recovers the stem. -/
theorem splitextRoot_concat (ts : String) :
    splitextRoot (ts ++ ".jpg") = ts := by
  unfold splitextRoot
  have hdata : (ts ++ ".jpg").toList = ts.toList ++ '.' :: ['j', 'p', 'g'] := rfl
  rw [hdata, if_pos (by simp)]
  have hrev : (ts.toList ++ '.' :: ['j', 'p', 'g']).reverse
      = ['g', 'p', 'j'] ++ '.' :: ts.toList.reverse := by
    simp
  rw [hrev, dropWhile_append_stop _ ['g', 'p', 'j'] '.' _ (by decide) (by decide)]
  simp only [List.drop_succ_cons, List.drop_zero, List.reverse_reverse]
  rfl

/-- basename of a generated capture path is its timestamped filename. -/
theorem basename_capture (t : Tm) (camera_id base_dir : String) :
    basename (generate_capture_path t camera_id base_dir "jpg")
      = strftimeTimestamp t ++ ".jpg" := by
  unfold generate_capture_path pathJoin
  have hjpg : strftimeTimestamp t ++ "." ++ "jpg" = strftimeTimestamp t ++ ".jpg" := by
    apply String.ext
    show ((strftimeTimestamp t).data ++ ['.']) ++ ['j', 'p', 'g']
      = (strftimeTimestamp t).data ++ ['.', 'j', 'p', 'g']
    simp
  rw [hjpg]
  apply basename_append_last
  intro c hc
  have hsplit : (strftimeTimestamp t ++ ".jpg").toList
      = (strftimeTimestamp t).toList ++ ['.', 'j', 'p', 'g'] := rfl
  rw [hsplit] at hc
  rcases List.mem_append.mp hc with h1 | h1
  · exact (strftime_no_slash_dot t c h1).1
  · fin_cases h1 <;> decide

/-- Claim C1: the shared frame channel is claimed bounded with drop-on-full
backpressure; on the code this fails. StreamManager builds queue.Queue()
with the default maxsize of 0, which is unbounded, so for any number of
frames produced with no intervening consumption every frame is queued and
the drop branch never fires: the resulting queue holds all M frames, which
for M greater than any claimed capacity N contradicts the at-most-N
invariant. -/
theorem C1_shared_queue_unbounded (camera_id : String) (frames : List (List Pixel)) :
    runStreamPuts StreamManager.frameQueueInit camera_id frames
      = (⟨0, frames.map (fun f => (camera_id, f))⟩, 0) := by
  have key : ∀ (fs : List (List Pixel)) (acc : List (String × List Pixel)),
      runStreamPuts ⟨0, acc⟩ camera_id fs
        = (⟨0, acc ++ fs.map (fun f => (camera_id, f))⟩, 0) := by
    intro fs
    induction fs with
    | nil => intro acc; simp [runStreamPuts]
    | cons f rest ih =>
      intro acc
      have h2 := ih (acc ++ [(camera_id, f)])
      simp only [runStreamPuts] at h2 ⊢
      simp only [List.foldl_cons, PyQueue.put]
      simp only [Nat.lt_irrefl, false_and, if_false, Nat.add_zero]
      simpa [List.append_assoc] using h2
  simpa using key frames []

/-- Claim C2, counterexample: the path the orchestrator reconstructs from
the raw capture path does not always name the annotated image that
save_annotated_image stores, because save_annotated_image formats its own
timestamp at the moment it runs; when that moment falls one second after
the raw capture path was generated, the two paths differ. -/
theorem C2_counterexample_timestamp :
    reconstructedAnnotatedPath
        (generate_capture_path ⟨2025, 10, 12, 12, 0, 0⟩ "cam1" "captures" "jpg")
        "cam1" "detections"
      ≠ annotatedImagePath ⟨2025, 10, 12, 12, 0, 1⟩ "cam1" "detections" := by
  decide

/-- Claim C2, amended: the annotated image is stored at
detectionsDir/cameraId/ts.jpg where ts is the strftime of the moment
save_annotated_image runs; the path the orchestrator reconstructs from the
raw capture path equals it exactly when that moment formats to the same
YYYYMMDD-HHMMSS second as the raw capture's path generation. -/
theorem C2_annotated_path_amended (ta tb : Tm)
    (camera_id capture_dir detections_dir : String)
    (h : strftimeTimestamp ta = strftimeTimestamp tb) :
    reconstructedAnnotatedPath
        (generate_capture_path ta camera_id capture_dir "jpg")
        camera_id detections_dir
      = annotatedImagePath tb camera_id detections_dir := by
  unfold reconstructedAnnotatedPath annotatedImagePath
  rw [basename_capture, splitextRoot_concat, h]

/-- Witness for the amended claim C2 at a concrete time, camera and
directories. -/
theorem C2_annotated_path_witness :
    reconstructedAnnotatedPath
        (generate_capture_path ⟨2025, 10, 12, 12, 0, 0⟩ "cam1" "captures" "jpg")
        "cam1" "detections"
      = annotatedImagePath ⟨2025, 10, 12, 12, 0, 0⟩ "cam1" "detections" :=
  C2_annotated_path_amended ⟨2025, 10, 12, 12, 0, 0⟩ ⟨2025, 10, 12, 12, 0, 0⟩
    "cam1" "captures" "detections" rfl

/-- Claim C3: whenever an escalated event returns one or more Detections
(motion detected, not in the detection cooldown, frame save succeeded), the
camera's last_alert_times entry (the spec's lastDetectionTime) is set to the
current time, for every email cooldown, every prior email time, every label
content and every annotated-file state, i.e. regardless of the alert
outcome. -/
theorem C3_lastDetection_reset (dc ec : Int) (st : CameraState) (now : Int)
    (d : Detection) (ds : List Detection) (annotated_exists : Bool)
    (h : ¬ (now - st.last_alert_time < dc)) :
    (processFrame dc ec st true now true (d :: ds) annotated_exists).1.last_alert_time
      = now := by
  unfold processFrame
  (repeat' split) <;> simp_all
  all_goals (repeat' split) <;> simp_all

/-- Witness for claim C3: concrete escalated event whose alert is not sent
(the annotated file is absent) still resets the detection time. -/
theorem C3_witness : (processFrame 5 60 ⟨0, 30⟩ true 100 true
    [⟨"person", (91:ℚ)/100, (10, 10, 50, 50)⟩] false).1.last_alert_time = 100 :=
  C3_lastDetection_reset 5 60 ⟨0, 30⟩ 100 ⟨"person", (91:ℚ)/100, (10, 10, 50, 50)⟩ []
    false (by decide)

/-- Claim C4: with a person detection at confidence 0.91, the hardcoded
alert-worthy set, last email time 0, email cooldown 60 and now 100 (and the
annotated image present, as produced by the escalation), delivery is
invoked exactly once and the email timer becomes 100; in the identical
situation but with now minus last email time equal to 30, delivery is not
invoked, the email timer is unchanged at 70, and the detection timer still
updates to 100. -/
theorem C4_alert_gating_scenarios :
    (processFrame 5 60 ⟨0, 0⟩ true 100 true
        [⟨"person", (91:ℚ)/100, (10, 10, 50, 50)⟩] true
      = (⟨100, 100⟩, ⟨true, true, 1⟩))
    ∧ (processFrame 5 60 ⟨0, 70⟩ true 100 true
        [⟨"person", (91:ℚ)/100, (10, 10, 50, 50)⟩] true
      = (⟨100, 70⟩, ⟨true, true, 0⟩)) := by
  constructor <;> rfl

/-- Claim C5: the stabilization-persist branch is entered exactly when the
motion pre-filter reported motion and the detection cooldown comparison is
false, and classification is invoked only when that branch was entered and
the frame save succeeded. -/
theorem C5_no_escalation_in_cooldown (dc ec : Int) (st : CameraState)
    (motion_detected : Bool) (now : Int) (save_successful : Bool)
    (detections : List Detection) (annotated_exists : Bool) :
    ((processFrame dc ec st motion_detected now save_successful detections
        annotated_exists).2.escalated
      = (motion_detected && !(decide (now - st.last_alert_time < dc))))
    ∧ ((processFrame dc ec st motion_detected now save_successful detections
        annotated_exists).2.inference_invoked
      = ((processFrame dc ec st motion_detected now save_successful detections
        annotated_exists).2.escalated && save_successful)) := by
  constructor <;>
    (simp only [processFrame]; split) <;>
    (try rfl) <;> (repeat' split) <;> simp_all

/-- Claim C6: the first call to detect on a freshly constructed motion
detector returns (false, 0) and stores the grayscale of the supplied frame
as the baseline, for every frame and every threshold and min_area. -/
theorem C6_first_detect_no_motion (thr area : Nat) (frame : List Pixel) :
    (MotionDetector.mkFresh thr area).detect frame
      = ((false, 0), ⟨thr, area, some (cvtColorGray frame)⟩) := rfl

/-- Claim C7: on a non-first call, the score is the count of pixels whose
grayscale absolute difference from the stored baseline strictly exceeds the
threshold, motion_detected is the strict comparison score greater than
min_area, the score does not depend on min_area, and a concrete frame pair
scoring 2000 yields motion true at min_area 1500 and motion false at
min_area 2500 with the same raw score. -/
theorem C7_motion_score (thr area area2 : Nat) (prev : List Nat) (frame : List Pixel) :
    ((MotionDetector.detect ⟨thr, area, some prev⟩ frame).1.2
        = ((absdiff prev (cvtColorGray frame)).filter (fun d => decide (thr < d))).length)
    ∧ ((MotionDetector.detect ⟨thr, area, some prev⟩ frame).1.1
        = decide (area < (MotionDetector.detect ⟨thr, area, some prev⟩ frame).1.2))
    ∧ ((MotionDetector.detect ⟨thr, area2, some prev⟩ frame).1.2
        = (MotionDetector.detect ⟨thr, area, some prev⟩ frame).1.2)
    ∧ ((MotionDetector.detect ⟨25, 1500, some (List.replicate 2000 0)⟩
          (List.replicate 2000 ⟨255, 255, 255⟩)).1 = (true, 2000)
        ∧ (MotionDetector.detect ⟨25, 2500, some (List.replicate 2000 0)⟩
          (List.replicate 2000 ⟨255, 255, 255⟩)).1 = (false, 2000)) := by
  refine ⟨?_, ?_, ?_, ?_, ?_⟩
  · simp [MotionDetector.detect, countNonZero_thresholdBinary]
  · simp [MotionDetector.detect]
  · simp [MotionDetector.detect]
  · rw [motion_score_replicate 25 1500 2000 0 ⟨255, 255, 255⟩ (by decide)]; rfl
  · rw [motion_score_replicate 25 2500 2000 0 ⟨255, 255, 255⟩ (by decide)]; rfl

/-- Claim C8: when the frame persist fails (imwrite returning false or an
exception, both folded into save_successful being false), classification is
never invoked, neither cooldown timer changes, and the loop step returns
normally with no retry, for every motion and cooldown situation. -/
theorem C8_persist_failure_skips_inference (dc ec : Int) (st : CameraState)
    (motion_detected : Bool) (now : Int) (detections : List Detection)
    (annotated_exists : Bool) :
    (processFrame dc ec st motion_detected now false detections annotated_exists).1 = st
    ∧ (processFrame dc ec st motion_detected now false detections
        annotated_exists).2.inference_invoked = false
    ∧ (processFrame dc ec st motion_detected now false detections
        annotated_exists).2.emails_sent = 0 := by
  refine ⟨?_, ?_, ?_⟩ <;> (simp only [processFrame]; split <;> rfl)

/-- Claim C9: a connected pull of the stream reader grabs exactly
FRAME_BUFFER_FLUSH buffered packets from the transport without decoding
them and then decodes the last grabbed one to yield; if any grab in the
flush fails, or the decode fails, the reader instead releases the
connection and sleeps the constant reconnect delay, yielding nothing. -/
theorem C9_stream_pull_cycle :
    (∀ (flush reconnect_delay : Nat) (pre rest : List Packet)
        (lg : Option Packet) (f : Nat),
      pre.length = flush → (∀ p ∈ pre, p ≠ Packet.grabFail) →
      pre.getLast? = some (Packet.ok f) →
      getFrameCycle flush reconnect_delay ⟨pre ++ rest, lg⟩
        = CycleResult.yield f ⟨rest, some (Packet.ok f)⟩)
    ∧ (∀ (flush reconnect_delay : Nat) (pre rest : List Packet)
        (lg : Option Packet),
      pre.length < flush → (∀ p ∈ pre, p ≠ Packet.grabFail) →
      getFrameCycle flush reconnect_delay ⟨pre ++ Packet.grabFail :: rest, lg⟩
        = CycleResult.reconnect true reconnect_delay)
    ∧ (∀ (flush reconnect_delay : Nat) (pre rest : List Packet)
        (lg : Option Packet),
      pre.length = flush → (∀ p ∈ pre, p ≠ Packet.grabFail) →
      pre.getLast? = some Packet.decodeFail →
      getFrameCycle flush reconnect_delay ⟨pre ++ rest, lg⟩
        = CycleResult.reconnect true reconnect_delay) := by
  refine ⟨?_, ?_, ?_⟩
  · intro flush delay pre rest lg f hlen hok hlast
    subst hlen
    simp [getFrameCycle, flushGrabs_all_ok pre rest lg hok, hlast, orElseO,
      Cap.retrieve]
  · intro flush delay pre rest lg hlt hok
    simp [getFrameCycle, flushGrabs_grab_failure pre rest lg flush hlt hok]
  · intro flush delay pre rest lg hlen hok hlast
    subst hlen
    simp [getFrameCycle, flushGrabs_all_ok pre rest lg hok, hlast, orElseO,
      Cap.retrieve]

/-- Witness for claim C9: with the default flush of 3 and four decodable
buffered packets, the cycle consumes three and yields the third. -/
theorem C9_witness :
    getFrameCycle 3 5 ⟨[Packet.ok 7, Packet.ok 8, Packet.ok 9, Packet.ok 1], none⟩
      = CycleResult.yield 9 ⟨[Packet.ok 1], some (Packet.ok 9)⟩ :=
  C9_stream_pull_cycle.1 3 5 [Packet.ok 7, Packet.ok 8, Packet.ok 9] [Packet.ok 1]
    none 9 rfl (by decide) rfl

/-- Claim C10: delivery happens only when the reconstructed annotated path
exists; when it is absent, no email is sent and the email timer is
unchanged for that event, while the detection timer still updates whenever
the event was an escalation with detections. -/
theorem C10_missing_annotation_suppresses_alert (dc ec : Int) (st : CameraState)
    (motion_detected : Bool) (now : Int) (save_successful : Bool)
    (detections : List Detection) :
    (∀ annotated_exists : Bool,
      (processFrame dc ec st motion_detected now save_successful detections
          annotated_exists).2.emails_sent ≠ 0 → annotated_exists = true)
    ∧ ((processFrame dc ec st motion_detected now save_successful detections
          false).1.last_email_time = st.last_email_time
        ∧ (processFrame dc ec st motion_detected now save_successful detections
          false).2.emails_sent = 0)
    ∧ (motion_detected = true → save_successful = true → detections ≠ [] →
        ¬ (now - st.last_alert_time < dc) →
        (processFrame dc ec st motion_detected now save_successful detections
          false).1.last_alert_time = now) := by
  refine ⟨?_, ?_, ?_⟩
  · intro ex
    cases ex
    · unfold processFrame
      (repeat' split) <;> simp_all
      all_goals (repeat' split) <;> simp_all
    · simp
  · constructor <;>
      (unfold processFrame
       (repeat' split) <;> simp_all
       all_goals (repeat' split) <;> simp_all)
  · intro hm hs hd hc
    subst hm; subst hs
    unfold processFrame
    (repeat' split) <;> simp_all [List.isEmpty_iff]

/-- Witness for claim C10: concrete alert-worthy escalation whose annotated
file is absent sends no email, keeps the email timer, and still updates the
detection timer. -/
theorem C10_witness :
    (processFrame 5 60 ⟨0, 0⟩ true 100 true
        [⟨"person", (91:ℚ)/100, (10, 10, 50, 50)⟩] false).2.emails_sent = 0
    ∧ (processFrame 5 60 ⟨0, 0⟩ true 100 true
        [⟨"person", (91:ℚ)/100, (10, 10, 50, 50)⟩] false).1.last_email_time = 0
    ∧ (processFrame 5 60 ⟨0, 0⟩ true 100 true
        [⟨"person", (91:ℚ)/100, (10, 10, 50, 50)⟩] false).1.last_alert_time = 100 := by
  have h := C10_missing_annotation_suppresses_alert 5 60 ⟨0, 0⟩ true 100 true
    [⟨"person", (91:ℚ)/100, (10, 10, 50, 50)⟩]
  exact ⟨h.2.1.2, h.2.1.1, h.2.2 rfl rfl (by simp) (by decide)⟩
